import Mathlib

/-!
Verification of the zstd external-producers hardware interface
(`contrib/externalProducers/externalProducers.h`, both header variants):
the checksum-state mirror (`hw_xxh64_state_t`), the histogram
(`histogram_t`), the exchange-parameters struct and its versioned status
bitmask, and the `SequenceProducerV2` call contract.

Machine integers are modelled as `Nat` with explicit reduction modulo
`2 ^ 64` where 64-bit overflow matters; byte buffers are `List Nat`
(each element a byte value).
-/

/-- Word size modulus for 64-bit arithmetic. -/
def M64 : Nat := 2 ^ 64

/-- Modelled from the spec: prime constant 1 of the authoritative XXH64
streaming-checksum algorithm (zstd `lib/common/xxhash.h`, not under src/). -/
def PRIME64_1 : Nat := 11400714785074694791

/-- Modelled from the spec: prime constant 2 of the XXH64 algorithm. -/
def PRIME64_2 : Nat := 14029467366897019727

/-- Modelled from the spec: prime constant 3 of the XXH64 algorithm. -/
def PRIME64_3 : Nat := 1609587929392839161

/-- Modelled from the spec: prime constant 4 of the XXH64 algorithm. -/
def PRIME64_4 : Nat := 9650029242287828579

/-- Modelled from the spec: prime constant 5 of the XXH64 algorithm. -/
def PRIME64_5 : Nat := 2870177450012600261

/-- 64-bit rotate left of a value below `2 ^ 64`. -/
def rotl64 (n r : Nat) : Nat := ((n <<< r) ||| (n >>> (64 - r))) % M64

/-- Read an 8-byte little-endian word from a byte list. -/
def readLE64 (l : List Nat) : Nat := l.foldr (fun b acc => b + 256 * acc) 0

/-- Read a 4-byte little-endian word from a byte list. -/
def readLE32 (l : List Nat) : Nat := l.foldr (fun b acc => b + 256 * acc) 0

/-- Four 64-bit accumulator lanes, the `v[4]` member of `hw_xxh64_state_t`. -/
abbrev Lanes := Nat × Nat × Nat × Nat

/-- The checksum-state mirror `hw_xxh64_state_t` of
`contrib/externalProducers/externalProducers.h` (identical in both header
variants): total length hashed, four accumulator lanes, and the carry
buffer `mem64` holding the bytes of a partial block.  The buffer is
modelled as the list of its `memsize` valid bytes; the reserved padding
fields carry no data. -/
structure hw_xxh64_state_t where
  total_len : Nat
  v : Lanes
  mem : List Nat
deriving DecidableEq, Repr

/-- The `memsize` field of `hw_xxh64_state_t`: the number of valid bytes
held in the carry buffer. -/
def hw_xxh64_state_t.memsize (s : hw_xxh64_state_t) : Nat := s.mem.length

/-- Modelled from the spec: the single-lane mixing step `XXH64_round` of
the XXH64 algorithm (zstd `lib/common/xxhash.h`, not under src/). -/
def XXH64_round (acc input : Nat) : Nat :=
  (rotl64 ((acc + input * PRIME64_2) % M64) 31 * PRIME64_1) % M64

/-- Modelled from the spec: folding one 32-byte block into the four
accumulator lanes, one `XXH64_round` per 8-byte little-endian word. -/
def XXH64_roundBlock (v : Lanes) (block : List Nat) : Lanes :=
  (XXH64_round v.1 (readLE64 (block.take 8)),
   XXH64_round v.2.1 (readLE64 ((block.drop 8).take 8)),
   XXH64_round v.2.2.1 (readLE64 ((block.drop 16).take 8)),
   XXH64_round v.2.2.2 (readLE64 ((block.drop 24).take 8)))

/-- Modelled from the spec: fold the first `n` 32-byte blocks of a byte
list into the lanes, returning the updated lanes and the bytes after
those blocks. -/
def consumeStripesN : Nat → Lanes → List Nat → Lanes × List Nat
  | 0, v, l => (v, l)
  | n + 1, v, l => consumeStripesN n (XXH64_roundBlock v (l.take 32)) (l.drop 32)

/-- Modelled from the spec: fold successive complete 32-byte blocks of a
byte list into the lanes, returning the updated lanes and the remaining
(fewer than 32) bytes. -/
def consumeStripes (v : Lanes) (l : List Nat) : Lanes × List Nat :=
  consumeStripesN (l.length / 32) v l

/-- Modelled from the spec: the caller's software routine `XXH64_reset`
(zstd `lib/common/xxhash.h`, not under src/): total length zero, the four
lanes at their algorithm-defined initial constants derived from the seed,
and an empty carry buffer. -/
def XXH64_reset (seed : Nat) : hw_xxh64_state_t :=
  { total_len := 0
    v := ((seed + PRIME64_1 + PRIME64_2) % M64,
          (seed + PRIME64_2) % M64,
          seed % M64,
          (seed + (M64 - PRIME64_1 % M64)) % M64)
    mem := [] }

/-- Modelled from the spec: the caller's software routine `XXH64_update`
(zstd `lib/common/xxhash.h`, not under src/), with the C control flow:
add the input length to `total_len`; if the carry buffer plus the input
hold fewer than 32 bytes, append the input to the carry buffer; otherwise
complete and fold the first 32-byte block from the carry buffer plus a
prefix of the input, fold the remaining complete 32-byte stripes of the
input, and store the trailing partial block in the carry buffer. -/
def XXH64_update (s : hw_xxh64_state_t) (input : List Nat) : hw_xxh64_state_t :=
  let total := (s.total_len + input.length) % M64
  if s.mem.length + input.length < 32 then
    { total_len := total, v := s.v, mem := s.mem ++ input }
  else
    let fill := 32 - s.mem.length
    let v1 := XXH64_roundBlock s.v (s.mem ++ input.take fill)
    let r := consumeStripes v1 (input.drop fill)
    { total_len := total, v := r.1, mem := r.2 }

/-- Modelled from the spec: the producer's offload update of the checksum
state mirror.  The header documents it as updating the state "as if
calling XXH64_update(src, srcSize)": the total length grows by the input
length, all complete 32-byte blocks of the pending carry-buffer bytes
followed by the input are folded into the lanes, and the remaining bytes
become the new carry buffer. -/
def hw_offload_update (s : hw_xxh64_state_t) (input : List Nat) : hw_xxh64_state_t :=
  let total := (s.total_len + input.length) % M64
  let r := consumeStripes s.v (s.mem ++ input)
  { total_len := total, v := r.1, mem := r.2 }

/-- Modelled from the spec: the `XXH64_mergeRound` step of the digest
routine of the XXH64 algorithm. -/
def XXH64_mergeRound (acc val : Nat) : Nat :=
  (((acc ^^^ XXH64_round 0 val) * PRIME64_1 + PRIME64_4) % M64)

/-- Modelled from the spec: the final avalanche of the XXH64 digest. -/
def XXH64_avalanche (x : Nat) : Nat :=
  let a := ((x ^^^ (x >>> 33)) * PRIME64_2) % M64
  let b := ((a ^^^ (a >>> 29)) * PRIME64_3) % M64
  b ^^^ (b >>> 32)

/-- Modelled from the spec: the tail loop of `XXH64_finalize` mixing the
remaining single bytes into the digest accumulator. -/
def XXH64_finalizeBytes (x : Nat) (l : List Nat) : Nat :=
  match l with
  | [] => x
  | b :: rest =>
      XXH64_finalizeBytes ((rotl64 (x ^^^ ((b * PRIME64_5) % M64)) 11 * PRIME64_1) % M64) rest

/-- Modelled from the spec: the 4-byte step of `XXH64_finalize`. -/
def XXH64_finalize4 (x : Nat) (l : List Nat) : Nat :=
  if 4 ≤ l.length then
    XXH64_finalizeBytes
      ((rotl64 (x ^^^ ((readLE32 (l.take 4) * PRIME64_1) % M64)) 23 * PRIME64_2 + PRIME64_3) % M64)
      (l.drop 4)
  else
    XXH64_finalizeBytes x l

/-- Modelled from the spec: the 8-byte loop of `XXH64_finalize`,
consuming the given number of complete 8-byte words before handing the
tail to the 4-byte step. -/
def XXH64_finalize8N : Nat → Nat → List Nat → Nat
  | 0, x, l => XXH64_finalize4 x l
  | n + 1, x, l =>
      XXH64_finalize8N n
        ((rotl64 (x ^^^ XXH64_round 0 (readLE64 (l.take 8))) 27 * PRIME64_1 + PRIME64_4) % M64)
        (l.drop 8)

/-- Modelled from the spec: the 8-byte loop of `XXH64_finalize`. -/
def XXH64_finalize8 (x : Nat) (l : List Nat) : Nat :=
  XXH64_finalize8N (l.length / 8) x l

/-- Modelled from the spec: the software routine `XXH64_digest` (zstd
`lib/common/xxhash.h`, not under src/): merge the four lanes (or start
from the seed-derived constant when fewer than 32 bytes were hashed), add
the total length, finalize over the carry-buffer bytes, and avalanche. -/
def XXH64_digest (s : hw_xxh64_state_t) : Nat :=
  let h0 :=
    if 32 ≤ s.total_len then
      let acc := (rotl64 s.v.1 1 + rotl64 s.v.2.1 7 + rotl64 s.v.2.2.1 12 + rotl64 s.v.2.2.2 18) % M64
      XXH64_mergeRound (XXH64_mergeRound (XXH64_mergeRound (XXH64_mergeRound acc s.v.1) s.v.2.1) s.v.2.2.1) s.v.2.2.2
    else
      (s.v.2.2.1 + PRIME64_5) % M64
  XXH64_avalanche (XXH64_finalize8 ((h0 + s.total_len) % M64) s.mem)

/-- Reachable checksum-mirror states: the initial state for any seed,
and any state produced from a reachable state by a software update or a
producer offload update on any input. -/
inductive ReachableState : hw_xxh64_state_t → Prop
  | init (seed : Nat) : ReachableState (XXH64_reset seed)
  | sw (s : hw_xxh64_state_t) (input : List Nat) :
      ReachableState s → ReachableState (XXH64_update s input)
  | hw (s : hw_xxh64_state_t) (input : List Nat) :
      ReachableState s → ReachableState (hw_offload_update s input)

/-!
C-layout model.  A `CType` records the size and alignment of a C object;
struct member offsets follow the standard LP64 layout rule: each member
is placed at the smallest offset past the previous member that satisfies
its alignment, and the struct size is the end offset rounded up to the
struct alignment (the maximum member alignment).
-/

/-- Size and alignment in bytes of a C object type. -/
structure CType where
  size : Nat
  align : Nat
deriving DecidableEq, Repr

/-- The `uint32_t` scalar type: 4 bytes, 4-byte aligned. -/
def uint32_c : CType := ⟨4, 4⟩

/-- The `uint64_t` scalar type on an LP64 host: 8 bytes, 8-byte aligned. -/
def uint64_c : CType := ⟨8, 8⟩

/-- A C array of `n` elements of type `t`. -/
def arr_c (t : CType) (n : Nat) : CType := ⟨t.size * n, t.align⟩

/-- Round `off` up to the next multiple of `a`. -/
def alignUp (off a : Nat) : Nat := ((off + a - 1) / a) * a

/-- Member offsets of a struct whose members, in declaration order, have
the given types, starting from offset `off`. -/
def structOffsetsFrom : Nat → List CType → List Nat
  | _, [] => []
  | off, f :: fs =>
      let o := alignUp off f.align
      o :: structOffsetsFrom (o + f.size) fs

/-- Member offsets of a struct from offset 0. -/
def structOffsets (fs : List CType) : List Nat := structOffsetsFrom 0 fs

/-- Offset one past the last member (before tail padding). -/
def structEndFrom : Nat → List CType → Nat
  | off, [] => off
  | off, f :: fs => structEndFrom (alignUp off f.align + f.size) fs

/-- Alignment of a struct: the maximum member alignment. -/
def structAlign (fs : List CType) : Nat := fs.foldr (fun f a => max f.align a) 1

/-- Size of a struct: the end offset rounded up to the struct alignment. -/
def structSize (fs : List CType) : Nat := alignUp (structEndFrom 0 fs) (structAlign fs)

/-- The struct type formed by a member list. -/
def structType (fs : List CType) : CType := ⟨structSize fs, structAlign fs⟩

/-- A C union of the given member types: size is the maximum member size
rounded up to the maximum member alignment. -/
def unionType (fs : List CType) : CType :=
  ⟨alignUp (fs.foldr (fun f a => max f.size a) 0) (structAlign fs), structAlign fs⟩

/-- Members of `hw_xxh64_state_t` as declared in the Version 2 header
`src/contrib/externalProducers/externalProducers.h` (lines 50-57):
`uint64_t total_len`, `uint64_t v[4]`, `uint64_t mem64[4]`,
`uint32_t memsize`, `uint32_t reserved32`, `uint64_t reserved64`. -/
def hwStateMembersV2 : List CType :=
  [uint64_c, arr_c uint64_c 4, arr_c uint64_c 4, uint32_c, uint32_c, uint64_c]

/-- Members of `hw_xxh64_state_t` as declared in the Version 1 header
`src/unnamed/part_000` (lines 50-57). -/
def hwStateMembersV1 : List CType :=
  [uint64_c, arr_c uint64_c 4, arr_c uint64_c 4, uint32_c, uint32_c, uint64_c]

/-- Modelled from the spec: members of the mirrored software state
`XXH64_state_t` (zstd `lib/common/xxhash.h`, not under src/): a 64-bit
total length, four 64-bit lanes, four 64-bit carry words, a 32-bit
valid-byte count, a 32-bit reserved field and a 64-bit reserved field. -/
def xxh64SoftwareStateMembers : List CType :=
  [uint64_c, arr_c uint64_c 4, arr_c uint64_c 4, uint32_c, uint32_c, uint64_c]

/-- Members of `histogram_t` (both headers, lines 78-90):
`uint32_t literal[256]`, `uint32_t literals_length_code[36]`,
`uint32_t match_length_code[53]`, `uint32_t offset_code[32]`. -/
def histogramMembers : List CType :=
  [arr_c uint32_c 256, arr_c uint32_c 36, arr_c uint32_c 53, arr_c uint32_c 32]

/-- The type of `histogram_t`: the member layout with the alignment
raised to 8 by `__attribute__ ((aligned (8)))`. -/
def histogramType : CType :=
  ⟨alignUp (structEndFrom 0 histogramMembers) 8, 8⟩

/-- The anonymous union inside the parameter structs, holding
`XXH64_state_t` and `hw_xxh64_state_t` (both headers; the software
member is present when the caller's hash library is compiled in). -/
def checksumUnion : CType :=
  unionType [structType xxh64SoftwareStateMembers, structType hwStateMembersV2]

/-- Members of `sequence_producer_parameters_t` of the Version 2 header
(lines 107-117): `uint32_t status`, the checksum union, and the embedded
`histogram_t`. -/
def producerParamsMembersV2 : List CType :=
  [uint32_c, checksumUnion, histogramType]

/-- Members of `sequence_provider_parameters_t` of the Version 1 header
(lines 109-119): `uint32_t request_response`, the checksum union, and
the embedded `histogram_t`. -/
def producerParamsMembersV1 : List CType :=
  [uint32_c, checksumUnion, histogramType]

/-!
Versioned status bitmask.  The Version 1 header (`src/unnamed/part_000`,
lines 104-107) defines four request/availability flags; the Version 2
header (`src/contrib/externalProducers/externalProducers.h`, lines
104-105) defines two availability-only flags.
-/

/-- Version 1 `#define XXHASH_REQUEST 0x00000001`. -/
def XXHASH_REQUEST : Nat := 0x00000001

/-- Version 1 `#define XXHASH_AVAILABLE 0x00000002`. -/
def XXHASH_AVAILABLE : Nat := 0x00000002

/-- Version 1 `#define HISTOGRAM_REQUEST 0x00000004`. -/
def HISTOGRAM_REQUEST : Nat := 0x00000004

/-- Version 1 `#define HISTOGRAM_AVAILABLE 0x00000008`. -/
def HISTOGRAM_AVAILABLE : Nat := 0x00000008

/-- Version 2 `#define XXHASH_READY 0x00000001`. -/
def XXHASH_READY : Nat := 0x00000001

/-- Version 2 `#define HISTOGRAM_READY 0x00000002`. -/
def HISTOGRAM_READY : Nat := 0x00000002

/-- The flag constants exposed by the Version 1 header, in definition
order. -/
def v1Flags : List Nat :=
  [XXHASH_REQUEST, XXHASH_AVAILABLE, HISTOGRAM_REQUEST, HISTOGRAM_AVAILABLE]

/-- The flag constants exposed by the Version 2 header, in definition
order. -/
def v2Flags : List Nat := [XXHASH_READY, HISTOGRAM_READY]

/-- One of the two accelerated features a status bit talks about. -/
inductive Feature
  | xxhash
  | histogram
deriving DecidableEq, Repr

/-- The role a status bit plays: a caller request, a Version 1
availability confirmation, or a Version 2 readiness confirmation. -/
inductive Role
  | request
  | available
  | ready
deriving DecidableEq, Repr

/-- The meaning of a status word under the Version 1 constants: the list
of (feature, role) assertions of its set flags, in bit order. -/
def v1Interp (w : Nat) : List (Feature × Role) :=
  (if w.testBit 0 then [(Feature.xxhash, Role.request)] else []) ++
  (if w.testBit 1 then [(Feature.xxhash, Role.available)] else []) ++
  (if w.testBit 2 then [(Feature.histogram, Role.request)] else []) ++
  (if w.testBit 3 then [(Feature.histogram, Role.available)] else [])

/-- The meaning of a status word under the Version 2 constants. -/
def v2Interp (w : Nat) : List (Feature × Role) :=
  (if w.testBit 0 then [(Feature.xxhash, Role.ready)] else []) ++
  (if w.testBit 1 then [(Feature.histogram, Role.ready)] else [])

/-!
Histogram collector and producer call contract.
-/

/-- The histogram `histogram_t` (both headers, lines 78-90): one
frequency counter per symbol of each of the four fixed alphabets —
256 literal byte values, 36 literal-length codes, 53 match-length codes
and 32 offset codes. -/
structure histogram_t where
  literal : Fin 256 → Nat
  literals_length_code : Fin 36 → Nat
  match_length_code : Fin 53 → Nat
  offset_code : Fin 32 → Nat

/-- The symbols of the four classes among the sequences one production
call emits: the literal bytes and, per emitted sequence, its
literal-length code, match-length code and offset code. -/
structure EmittedSymbols where
  literals : List (Fin 256)
  llCodes : List (Fin 36)
  mlCodes : List (Fin 53)
  ofCodes : List (Fin 32)

/-- Frequency table of a symbol list: each entry counts the occurrences
of its symbol. -/
def tabulate {n : Nat} (syms : List (Fin n)) : Fin n → Nat := fun i => syms.count i

/-- Modelled from the spec: the histogram a producer writes for one
call — the frequency, over exactly the sequence set emitted in this
call, of each literal byte, literal-length code, match-length code and
offset code (the external producer's tabulation code is not under
src/). -/
def produceHistogram (e : EmittedSymbols) : histogram_t :=
  { literal := tabulate e.literals
    literals_length_code := tabulate e.llCodes
    match_length_code := tabulate e.mlCodes
    offset_code := tabulate e.ofCodes }

/-- The status word and histogram of `sequence_producer_parameters_t`
(Version 2 header, lines 107-117). -/
structure sequence_producer_parameters_t where
  status : Nat
  histogram : histogram_t

/-- Modelled from the spec: the effect of one producer call on the
exchange-parameters block when histogram offload is available: the
histogram is entirely overwritten with this call's tabulation and the
HISTOGRAM_READY availability bit is set in the status word. -/
def producerCallHistogram (e : EmittedSymbols) (p : sequence_producer_parameters_t) :
    sequence_producer_parameters_t :=
  { status := p.status ||| HISTOGRAM_READY
    histogram := produceHistogram e }

/-- Modelled from the spec: the reserved sentinel return value
`ZSTD_SEQUENCE_PRODUCER_ERROR` of the sequence-producer API (`zstd.h`,
not under src/): the all-ones `size_t`, signalling "no sequences
produced, fall back to the software path". -/
def ZSTD_SEQUENCE_PRODUCER_ERROR : Nat := 2 ^ 64 - 1

/-- Modelled from the spec: the return value of a conforming
`SequenceProducerV2` implementation that found `numSeqs` sequences given
an output buffer for `outSeqsCapacity` sequences: the count written when
it fits the capacity, and the decline sentinel otherwise. -/
def producerReturnValue (numSeqs outSeqsCapacity : Nat) : Nat :=
  if numSeqs ≤ outSeqsCapacity then numSeqs else ZSTD_SEQUENCE_PRODUCER_ERROR

theorem consumeStripes_of_lt (v : Lanes) (l : List Nat) (h : l.length < 32) :
    consumeStripes v l = (v, l) := by
  unfold consumeStripes
  rw [Nat.div_eq_of_lt h]
  rfl

theorem consumeStripes_of_ge (v : Lanes) (l : List Nat) (h : 32 ≤ l.length) :
    consumeStripes v l = consumeStripes (XXH64_roundBlock v (l.take 32)) (l.drop 32) := by
  unfold consumeStripes
  rw [List.length_drop, Nat.div_eq_sub_div (by norm_num) h]
  rfl

/-- The producer's offload update computes the same state as the
software update routine, for every state whose carry buffer is not
overfull. -/
theorem hw_offload_update_eq_XXH64_update
    (s : hw_xxh64_state_t) (input : List Nat) (h : s.memsize < 32) :
    hw_offload_update s input = XXH64_update s input := by
  unfold hw_offload_update XXH64_update
  by_cases hlen : s.mem.length + input.length < 32
  · have hshort : (s.mem ++ input).length < 32 := by
      simpa [List.length_append] using hlen
    simp [hlen, consumeStripes_of_lt _ _ hshort]
  · have hge : 32 ≤ (s.mem ++ input).length := by
      simp only [List.length_append]
      omega
    have hmem : s.mem.length ≤ 32 := by
      unfold hw_xxh64_state_t.memsize at h
      omega
    have htake : (s.mem ++ input).take 32 = s.mem ++ input.take (32 - s.mem.length) := by
      rw [List.take_append_eq_append_take, List.take_of_length_le hmem]
    have hdrop : (s.mem ++ input).drop 32 = input.drop (32 - s.mem.length) := by
      rw [List.drop_append_eq_append_drop, List.drop_eq_nil_of_le hmem, List.nil_append]
    simp [hlen, consumeStripes_of_ge _ _ hge, htake, hdrop]

theorem consumeStripes_snd_length :
    ∀ (n : Nat) (v : Lanes) (l : List Nat), l.length ≤ n →
      (consumeStripes v l).2.length < 32 := by
  intro n
  induction n with
  | zero =>
    intro v l hl
    have hlt : l.length < 32 := by omega
    rw [consumeStripes_of_lt v l hlt]
    exact hlt
  | succ n ih =>
    intro v l hl
    by_cases h32 : 32 ≤ l.length
    · rw [consumeStripes_of_ge v l h32]
      apply ih
      simp only [List.length_drop]
      omega
    · rw [consumeStripes_of_lt v l (by omega)]
      exact Nat.lt_of_not_le h32

theorem XXH64_update_memsize (s : hw_xxh64_state_t) (input : List Nat) :
    (XXH64_update s input).memsize < 32 := by
  unfold XXH64_update hw_xxh64_state_t.memsize
  by_cases hlen : s.mem.length + input.length < 32
  · simp only [hlen, if_true]
    simp [List.length_append]
    omega
  · simp only [hlen, if_false]
    exact consumeStripes_snd_length _ _ _ (Nat.le_refl _)

theorem hw_offload_update_memsize (s : hw_xxh64_state_t) (input : List Nat) :
    (hw_offload_update s input).memsize < 32 := by
  unfold hw_offload_update hw_xxh64_state_t.memsize
  exact consumeStripes_snd_length _ _ _ (Nat.le_refl _)

/-- C1: for every checksum state with a legal carry buffer and every
input, the producer's offload update yields exactly the state the
software `XXH64_update` yields (same total-length increment, same lane
mixing, same carry-buffer management); consequently a seed → offload
update → continue-in-software round trip produces the same final digest
as hashing entirely in software. -/
theorem offload_update_refines_software
    (s : hw_xxh64_state_t) (input : List Nat) (seed : Nat) (pre post : List Nat)
    (h : s.memsize ≤ 31) :
    hw_offload_update s input = XXH64_update s input ∧
    XXH64_digest (XXH64_update (hw_offload_update (XXH64_reset seed) pre) post) =
      XXH64_digest (XXH64_update (XXH64_update (XXH64_reset seed) pre) post) := by
  constructor
  · exact hw_offload_update_eq_XXH64_update s input (by omega)
  · rw [hw_offload_update_eq_XXH64_update (XXH64_reset seed) pre
      (by simp [XXH64_reset, hw_xxh64_state_t.memsize])]

/-- Witness for C1 at a concrete state and input. -/
theorem offload_update_refines_software_witness :
    (XXH64_reset 0).memsize ≤ 31 ∧
    hw_offload_update (XXH64_reset 0) (List.range 40) =
      XXH64_update (XXH64_reset 0) (List.range 40) :=
  ⟨by decide, (offload_update_refines_software (XXH64_reset 0) (List.range 40) 0 [] []
      (by decide)).1⟩

/-- C7: the offload update, applied to the freshly seeded state (total
length 0, empty carry buffer, lanes at the algorithm-defined initial
constants) with a 40-byte input, yields total length 40, exactly one
32-byte block folded into the lanes, and the trailing 8 bytes (40 mod
32) held in the carry buffer with memsize 8. -/
theorem offload_forty_bytes_folds_one_block :
    (hw_offload_update (XXH64_reset 0) (List.range 40)).total_len = 40 ∧
    (hw_offload_update (XXH64_reset 0) (List.range 40)).memsize = 8 ∧
    (hw_offload_update (XXH64_reset 0) (List.range 40)).mem = (List.range 40).drop 32 ∧
    (hw_offload_update (XXH64_reset 0) (List.range 40)).v =
      XXH64_roundBlock (XXH64_reset 0).v ((List.range 40).take 32) := by
  refine ⟨by decide, by decide, by decide, by decide⟩

/-- C8: every reachable checksum state — the initial state and every
state produced from a reachable state by an offload or software update —
has at most 31 valid bytes in its carry buffer: a full 32-byte block is
always folded into the lanes immediately. -/
theorem reachable_memsize_le_31 (s : hw_xxh64_state_t) (h : ReachableState s) :
    s.memsize ≤ 31 := by
  induction h with
  | init seed => simp [XXH64_reset, hw_xxh64_state_t.memsize]
  | sw s input _ _ => have := XXH64_update_memsize s input; omega
  | hw s input _ _ => have := hw_offload_update_memsize s input; omega

/-- Witness for C8 at a concrete reachable state. -/
theorem reachable_memsize_le_31_witness :
    (XXH64_update (XXH64_reset 7) (List.range 5)).memsize ≤ 31 :=
  reachable_memsize_le_31 _ (ReachableState.sw _ _ (ReachableState.init 7))

/-- C9: the checksum-state mirror is laid out as an 8-byte total length
at offset 0, four 8-byte lanes at offset 8, the 32-byte carry buffer at
offset 40, the 4-byte valid-byte count at offset 72, 4 reserved bytes at
offset 76 and 8 reserved bytes at offset 80; its size is 88 with
alignment 8, and layout, size and alignment are identical in the two
header variants and in the mirrored software `XXH64_state_t`. -/
theorem hw_state_layout :
    structOffsets hwStateMembersV2 = [0, 8, 40, 72, 76, 80] ∧
    structSize hwStateMembersV2 = 88 ∧
    structAlign hwStateMembersV2 = 8 ∧
    hwStateMembersV1 = hwStateMembersV2 ∧
    xxh64SoftwareStateMembers = hwStateMembersV2 := by
  refine ⟨by decide, by decide, by decide, by decide, by decide⟩

/-- C4: the Version 1 header defines exactly four flags — a request bit
and an availability bit for each of checksum and histogram — and the
Version 2 header defines exactly two availability-only flags; within
each version the flags are pairwise-distinct powers of two, and no
Version 2 bit carries a request role. -/
theorem version_flag_sets :
    v1Flags = [2 ^ 0, 2 ^ 1, 2 ^ 2, 2 ^ 3] ∧
    v2Flags = [2 ^ 0, 2 ^ 1] ∧
    v1Flags.length = 4 ∧
    v2Flags.length = 2 ∧
    v1Flags.Pairwise (fun a b => a ≠ b) ∧
    v2Flags.Pairwise (fun a b => a ≠ b) ∧
    v1Interp (XXHASH_REQUEST ||| HISTOGRAM_REQUEST) =
      [(Feature.xxhash, Role.request), (Feature.histogram, Role.request)] ∧
    v1Interp (XXHASH_AVAILABLE ||| HISTOGRAM_AVAILABLE) =
      [(Feature.xxhash, Role.available), (Feature.histogram, Role.available)] ∧
    (∀ m ∈ v2Interp (XXHASH_READY ||| HISTOGRAM_READY), m.2 = Role.ready) := by
  refine ⟨rfl, rfl, rfl, rfl, by decide, by decide, by decide, by decide, by decide⟩

theorem testBit_eq_mod16_testBit (w b : Nat) (hb : b < 4) :
    w.testBit b = (w % 16).testBit b := by
  have h16 : (16 : Nat) = 2 ^ 4 := by norm_num
  rw [h16, Nat.testBit_mod_two_pow]
  simp [hb]

theorem v1Interp_mod16 (w : Nat) : v1Interp w = v1Interp (w % 16) := by
  unfold v1Interp
  rw [testBit_eq_mod16_testBit w 0 (by norm_num), testBit_eq_mod16_testBit w 1 (by norm_num),
    testBit_eq_mod16_testBit w 2 (by norm_num), testBit_eq_mod16_testBit w 3 (by norm_num)]

theorem v2Interp_mod16 (w : Nat) : v2Interp w = v2Interp (w % 16) := by
  unfold v2Interp
  rw [testBit_eq_mod16_testBit w 0 (by norm_num), testBit_eq_mod16_testBit w 1 (by norm_num)]

/-- C5: the two versions' bitmask layouts are semantically distinct:
every status word with at least one of the four defined bit positions
set means something different under the Version 1 constants than under
the Version 2 constants, so a word written under one version's constant
set cannot be interpreted under the other's without changing its
meaning. -/
theorem version_interpretations_disagree (w : Nat) (h : w % 16 ≠ 0) :
    v1Interp w ≠ v2Interp w := by
  rw [v1Interp_mod16, v2Interp_mod16]
  have key : ∀ m : Nat, m < 16 → m ≠ 0 → v1Interp m ≠ v2Interp m := by decide
  exact key (w % 16) (Nat.mod_lt _ (by norm_num)) h

/-- Witness for C5 at the concrete status word 3. -/
theorem version_interpretations_disagree_witness :
    (3 : Nat) % 16 ≠ 0 ∧ v1Interp 3 ≠ v2Interp 3 :=
  ⟨by decide, version_interpretations_disagree 3 (by decide)⟩

/-- C6: the two versions' bit constants collide numerically — Version
2's XXHASH_READY equals Version 1's XXHASH_REQUEST and Version 2's
HISTOGRAM_READY equals Version 1's XXHASH_AVAILABLE — while both bitmask
fields sit at offset 0, the first position of their parameter structs;
hence a Version 2 status of (XXHASH_READY | HISTOGRAM_READY) reads under
the Version 1 constants as (XXHASH_REQUEST | XXHASH_AVAILABLE), and a
status containing only Version 2 flags never has Version 1's
HISTOGRAM_AVAILABLE bit set. -/
theorem version_bit_values_collide :
    XXHASH_READY = XXHASH_REQUEST ∧
    HISTOGRAM_READY = XXHASH_AVAILABLE ∧
    (structOffsets producerParamsMembersV2).head? = some 0 ∧
    (structOffsets producerParamsMembersV1).head? = some 0 ∧
    XXHASH_READY ||| HISTOGRAM_READY = XXHASH_REQUEST ||| XXHASH_AVAILABLE ∧
    v1Interp (XXHASH_READY ||| HISTOGRAM_READY) =
      [(Feature.xxhash, Role.request), (Feature.xxhash, Role.available)] ∧
    (∀ w : Nat, w &&& (XXHASH_READY ||| HISTOGRAM_READY) = w →
      w &&& HISTOGRAM_AVAILABLE = 0) := by
  refine ⟨rfl, rfl, by decide, by decide, by decide, by decide, ?_⟩
  intro w hw
  have hle : w ≤ 3 := by
    calc w = w &&& (XXHASH_READY ||| HISTOGRAM_READY) := hw.symm
    _ ≤ 3 := Nat.and_le_right
  interval_cases w <;> decide

/-- Witness for C6: the inner contract instantiated at the full Version
2 status word. -/
theorem version_bit_values_collide_witness :
    (3 : Nat) &&& (XXHASH_READY ||| HISTOGRAM_READY) = 3 ∧
    (3 : Nat) &&& HISTOGRAM_AVAILABLE = 0 :=
  ⟨by decide, version_bit_values_collide.2.2.2.2.2.2 3 (by decide)⟩

/-- C10 counterexample: the exchange-parameters struct does not place
the checksum union immediately after the 4-byte bitmask: the union's
8-byte alignment forces it to offset 8, not 4. -/
theorem producer_params_union_not_adjacent :
    ¬ (structOffsets producerParamsMembersV2 =
        [0, uint32_c.size, uint32_c.size + checksumUnion.size]) := by
  decide

/-- C10 (amended): the exchange-parameters struct of both header
variants is laid out as the 4-byte bitmask at offset 0, then 4 bytes of
alignment padding, then the checksum union — sized to the larger of the
two checksum-state representations, 88 bytes — at offset 8, immediately
followed by the embedded 377-counter histogram at offset 96. -/
theorem producer_params_layout :
    structOffsets producerParamsMembersV2 = [0, 8, 96] ∧
    structOffsets producerParamsMembersV1 = [0, 8, 96] ∧
    uint32_c.size = 4 ∧
    checksumUnion.size =
      max (structType xxh64SoftwareStateMembers).size (structType hwStateMembersV2).size ∧
    checksumUnion.size = 88 ∧
    8 = uint32_c.size + 4 ∧
    96 = 8 + checksumUnion.size ∧
    histogramMembers = [arr_c uint32_c 256, arr_c uint32_c 36, arr_c uint32_c 53, arr_c uint32_c 32] ∧
    structEndFrom 0 histogramMembers = 377 * 4 := by
  refine ⟨by decide, by decide, rfl, by decide, by decide, by decide, by decide, rfl, by decide⟩

theorem sum_tabulate_eq_length {n : Nat} (l : List (Fin n)) :
    (∑ i : Fin n, tabulate l i) = l.length := by
  unfold tabulate
  induction l with
  | nil => simp
  | cons a t ih =>
    simp only [List.count_cons, List.length_cons, beq_iff_eq]
    rw [Finset.sum_add_distrib, ih]
    congr 1
    simp

/-- C2: after any call whose returned status has the histogram-ready
bit set, each of the four histogram arrays sums to exactly the number of
symbols of its class among the sequences emitted by that same call, and
the histogram is overwritten per call — it does not depend on the
histogram contents the block held before the call. -/
theorem histogram_sums_match_emitted
    (e : EmittedSymbols) (p : sequence_producer_parameters_t)
    (_h : (producerCallHistogram e p).status &&& HISTOGRAM_READY ≠ 0) :
    (∑ i : Fin 256, (producerCallHistogram e p).histogram.literal i) = e.literals.length ∧
    (∑ i : Fin 36, (producerCallHistogram e p).histogram.literals_length_code i) = e.llCodes.length ∧
    (∑ i : Fin 53, (producerCallHistogram e p).histogram.match_length_code i) = e.mlCodes.length ∧
    (∑ i : Fin 32, (producerCallHistogram e p).histogram.offset_code i) = e.ofCodes.length ∧
    (∀ q : sequence_producer_parameters_t,
      (producerCallHistogram e q).histogram = (producerCallHistogram e p).histogram) := by
  refine ⟨sum_tabulate_eq_length e.literals, sum_tabulate_eq_length e.llCodes,
    sum_tabulate_eq_length e.mlCodes, sum_tabulate_eq_length e.ofCodes, fun q => rfl⟩

/-- Witness for C2 at a concrete call with two literals and one
sequence. -/
theorem histogram_sums_match_emitted_witness :
    ((producerCallHistogram ⟨[5, 5], [3], [0], [31]⟩
        ⟨0, ⟨fun _ => 9, fun _ => 9, fun _ => 9, fun _ => 9⟩⟩).status &&& HISTOGRAM_READY ≠ 0) ∧
    (∑ i : Fin 256, (producerCallHistogram ⟨[5, 5], [3], [0], [31]⟩
        ⟨0, ⟨fun _ => 9, fun _ => 9, fun _ => 9, fun _ => 9⟩⟩).histogram.literal i) =
      ([5, 5] : List (Fin 256)).length :=
  ⟨by decide,
    (histogram_sums_match_emitted ⟨[5, 5], [3], [0], [31]⟩
      ⟨0, ⟨fun _ => 9, fun _ => 9, fun _ => 9, fun _ => 9⟩⟩ (by decide)).1⟩

/-- C3: for every call with a capacity a real output buffer can have
(below the all-ones `size_t`), the value a conforming producer returns
either is the sentinel or is a sequence count within the supplied
capacity, and the two cases are unambiguous: a value within capacity is
never the sentinel, and a non-sentinel value is always a count within
capacity. -/
theorem producer_return_contract (numSeqs outSeqsCapacity : Nat)
    (h : outSeqsCapacity < ZSTD_SEQUENCE_PRODUCER_ERROR) :
    (producerReturnValue numSeqs outSeqsCapacity = ZSTD_SEQUENCE_PRODUCER_ERROR ∨
      producerReturnValue numSeqs outSeqsCapacity ≤ outSeqsCapacity) ∧
    (producerReturnValue numSeqs outSeqsCapacity ≤ outSeqsCapacity →
      producerReturnValue numSeqs outSeqsCapacity ≠ ZSTD_SEQUENCE_PRODUCER_ERROR) ∧
    (producerReturnValue numSeqs outSeqsCapacity ≠ ZSTD_SEQUENCE_PRODUCER_ERROR →
      producerReturnValue numSeqs outSeqsCapacity ≤ outSeqsCapacity) := by
  unfold producerReturnValue
  split
  · exact ⟨Or.inr (by assumption), fun _ => by omega, fun _ => by assumption⟩
  · exact ⟨Or.inl rfl, fun hle => by omega, fun hne => absurd rfl hne⟩

/-- Witness for C3 at a concrete count and capacity. -/
theorem producer_return_contract_witness :
    (5 : Nat) < ZSTD_SEQUENCE_PRODUCER_ERROR ∧
    (producerReturnValue 2 5 = ZSTD_SEQUENCE_PRODUCER_ERROR ∨ producerReturnValue 2 5 ≤ 5) :=
  ⟨by decide, (producer_return_contract 2 5 (by decide)).1⟩
